import Mathlib

/-!
Verification of the NIS2 exposure assessment logic (src/script.js).

The embedding mirrors the source file:
* the answer state literal (script.js lines 8-21) becomes the structures
  DigitalInfrastructure, Answers, SessionState and the value initialState;
* calculateTier (lines 122-166) is split into calculateScore (the scoring
  accumulation, lines 125-156) and calculateTier (the threshold selection,
  lines 158-165) over it;
* the navigation operations goToStep, selectOption, validateStep3, goBack,
  calculateAndShowResults and restartAssessment become state transformers on
  SessionState.  DOM manipulation (CSS classes, scrolling, innerHTML, the
  300 ms animation delay) is presentation-collaborator work with no effect
  on the state record and is dropped; the checkbox values read inside
  validateStep3 become an explicit parameter.

Single-valued answers are Option String (null in the source becomes none),
so the fall-through branches of calculateTier behave exactly as the
JavaScript strict equality comparisons against null or any other string.
-/

namespace NIS2

/-- The four independent infrastructure booleans (script.js lines 13-18). -/
structure DigitalInfrastructure where
  cloud : Bool
  mfa : Bool
  incidentProcess : Bool
  supplyChain : Bool
deriving DecidableEq, Fintype, Repr

/-- The answer record collected across steps 1-4 (script.js lines 10-20). -/
structure Answers where
  entitySize : Option String
  serviceSensitivity : Option String
  digitalInfrastructure : DigitalInfrastructure
  governanceMaturity : Option String
deriving DecidableEq, Repr

/-- The whole mutable module state (script.js lines 8-21). -/
structure SessionState where
  step : Nat
  answers : Answers
deriving DecidableEq, Repr

/-- The initial answers value of the state literal (lines 10-20): all three
enum answers null and the four booleans false. -/
def initialAnswers : Answers :=
  { entitySize := none
    serviceSensitivity := none
    digitalInfrastructure :=
      { cloud := false, mfa := false, incidentProcess := false, supplyChain := false }
    governanceMaturity := none }

/-- The initial session state (lines 8-21): step 1, all answers unset. -/
def initialState : SessionState :=
  { step := 1, answers := initialAnswers }

/-- Scoring accumulation of calculateTier (script.js lines 123-156), kept in
the same shape: entity size weight, then service sensitivity weight, then the
capped infrastructure risk subtotal, then the governance modifier. -/
def calculateScore (a : Answers) : Int :=
  let entitySize := a.entitySize
  let serviceSensitivity := a.serviceSensitivity
  let digitalInfrastructure := a.digitalInfrastructure
  let governanceMaturity := a.governanceMaturity
  let score : Int := 0
  let score :=
    if entitySize = some "large" then score + 3
    else if entitySize = some "medium" then score + 2
    else score + 1
  let score :=
    if serviceSensitivity = some "high" then score + 3
    else if serviceSensitivity = some "medium" then score + 2
    else score + 1
  let infraRisk : Int := 0
  let infraRisk := if digitalInfrastructure.cloud then infraRisk + 1 else infraRisk
  let infraRisk := if !digitalInfrastructure.mfa then infraRisk + 2 else infraRisk
  let infraRisk := if !digitalInfrastructure.incidentProcess then infraRisk + 2 else infraRisk
  let infraRisk := if digitalInfrastructure.supplyChain then infraRisk + 1 else infraRisk
  let score := score + min infraRisk 3
  let governanceModifier : Int :=
    if governanceMaturity = some "none" then 2
    else if governanceMaturity = some "basic" then 1
    else if governanceMaturity = some "structured" then -1
    else if governanceMaturity = some "iso" then -2
    else 0
  score + governanceModifier

/-- Threshold selection of calculateTier (script.js lines 158-165) on the
score computed by lines 123-156. -/
def calculateTier (a : Answers) : String :=
  let score := calculateScore a
  if score ≥ 6 then "tier-3"
  else if score ≥ 4 then "tier-2"
  else "tier-1"

/-- Navigation (script.js lines 39-51): the step changes only when the target
step has a screen, i.e. is one of 1..5. -/
def goToStep (stepNumber : Nat) (st : SessionState) : SessionState :=
  if 1 ≤ stepNumber ∧ stepNumber ≤ 5 then { st with step := stepNumber } else st

/-- Result display (script.js lines 259-265): computes the tier of the
current answers and moves to step 5.  The rendered HTML is display work. -/
def calculateAndShowResults (st : SessionState) : SessionState :=
  goToStep 5 st

/-- Option selection for steps 1, 2 and 4 (script.js lines 58-73): records the
value in the corresponding field, then advances (1 to 2, 2 to 3, 4 to the
results step); any other step argument leaves the state unchanged. -/
def selectOption (step : Nat) (value : String) (st : SessionState) : SessionState :=
  if step = 1 then
    goToStep 2 { st with answers := { st.answers with entitySize := some value } }
  else if step = 2 then
    goToStep 3 { st with answers := { st.answers with serviceSensitivity := some value } }
  else if step = 4 then
    calculateAndShowResults
      { st with answers := { st.answers with governanceMaturity := some value } }
  else st

/-- Step 3 submission (script.js lines 96-106): overwrites all four
infrastructure booleans at once and advances to step 4.  The checkbox values
read from the DOM become the flags parameter. -/
def validateStep3 (flags : DigitalInfrastructure) (st : SessionState) : SessionState :=
  goToStep 4 { st with answers := { st.answers with digitalInfrastructure := flags } }

/-- Back navigation (script.js lines 112-116): moves to the previous step when
the given current step is above 1, otherwise does nothing. -/
def goBack (currentStep : Nat) (st : SessionState) : SessionState :=
  if currentStep > 1 then goToStep (currentStep - 1) st else st

/-- Restart (script.js lines 270-295): resets every answer to its default and
returns to step 1. -/
def restartAssessment (st : SessionState) : SessionState :=
  goToStep 1
    { st with answers :=
      { entitySize := none
        serviceSensitivity := none
        digitalInfrastructure :=
          { cloud := false, mfa := false, incidentProcess := false, supplyChain := false }
        governanceMaturity := none } }

/-! Specification-side weight tables, written from the words of the spec for
comparison with the code: sizeWeight and sensitivityWeight from section 4.2
steps 1-2, infraRiskSum as the independent sum of section 4.2 step 3, and
governanceModifier from section 4.2 step 4. -/

/-- Spec section 4.2 step 1: large gives 3, medium gives 2, small or any other
or default value gives 1. -/
def sizeWeight (entitySize : Option String) : Int :=
  if entitySize = some "large" then 3
  else if entitySize = some "medium" then 2
  else 1

/-- Spec section 4.2 step 2: high gives 3, medium gives 2, low or default
gives 1. -/
def sensitivityWeight (serviceSensitivity : Option String) : Int :=
  if serviceSensitivity = some "high" then 3
  else if serviceSensitivity = some "medium" then 2
  else 1

/-- Spec section 4.2 step 3: each infrastructure condition adds
independently; cloud true adds 1, mfa false adds 2, incidentProcess false
adds 2, supplyChain true adds 1. -/
def infraRiskSum (d : DigitalInfrastructure) : Int :=
  (if d.cloud then 1 else 0) + (if !d.mfa then 2 else 0) +
    (if !d.incidentProcess then 2 else 0) + (if d.supplyChain then 1 else 0)

/-- Spec section 4.2 step 4: governance modifier, none gives 2, basic gives 1,
structured gives -1, iso gives -2, any other value gives 0. -/
def governanceModifier (governanceMaturity : Option String) : Int :=
  if governanceMaturity = some "none" then 2
  else if governanceMaturity = some "basic" then 1
  else if governanceMaturity = some "structured" then -1
  else if governanceMaturity = some "iso" then -2
  else 0

/-- Rank of the three tiers, for stating that a tier is never lowered. -/
def tierRank (tier : String) : Nat :=
  if tier = "tier-1" then 1
  else if tier = "tier-2" then 2
  else if tier = "tier-3" then 3
  else 0

/-- Position of an entity size in the order small, medium, large. -/
def sizeRank (v : String) : Nat :=
  if v = "small" then 0 else if v = "medium" then 1 else 2

/-- Position of a service sensitivity in the order low, medium, high. -/
def sensitivityRank (v : String) : Nat :=
  if v = "low" then 0 else if v = "medium" then 1 else 2

/-- A three-way weight accumulation step equals adding the selected weight. -/
theorem addWeight3 (s : Int) (c d : Prop) [Decidable c] [Decidable d] :
    (if c then s + 3 else if d then s + 2 else s + 1) =
      s + (if c then 3 else if d then 2 else 1) := by
  split_ifs <;> ring

/-- A conditional risk increment equals adding the selected amount. -/
theorem addFlag (r k : Int) (b : Bool) :
    (if b then r + k else r) = r + (if b then k else 0) := by
  cases b <;> simp

/-- The accumulated score decomposes as the sum of the four independent
contributions of the spec. -/
theorem calculateScore_decomp (a : Answers) :
    calculateScore a =
      sizeWeight a.entitySize + sensitivityWeight a.serviceSensitivity +
        min (infraRiskSum a.digitalInfrastructure) 3 +
        governanceModifier a.governanceMaturity := by
  simp only [calculateScore]
  rw [addWeight3, addWeight3, addFlag, addFlag, addFlag, addFlag]
  unfold sizeWeight sensitivityWeight infraRiskSum governanceModifier
  omega

/-- The result of the threshold selection is always one of the three tiers. -/
theorem calculateTier_cases (a : Answers) :
    calculateTier a = "tier-1" ∨ calculateTier a = "tier-2" ∨ calculateTier a = "tier-3" := by
  simp only [calculateTier]
  split_ifs <;> simp

/-- Scores at least 6 select tier-3. -/
theorem calculateTier_eq_three {a : Answers} (h : 6 ≤ calculateScore a) :
    calculateTier a = "tier-3" := by
  simp only [calculateTier]
  rw [if_pos h]

/-- Scores in the band 4 to 5 select tier-2. -/
theorem calculateTier_eq_two {a : Answers} (h4 : 4 ≤ calculateScore a)
    (h6 : calculateScore a < 6) : calculateTier a = "tier-2" := by
  simp only [calculateTier]
  rw [if_neg (by omega), if_pos h4]

/-- Scores below 4 select tier-1. -/
theorem calculateTier_eq_one {a : Answers} (h : calculateScore a < 4) :
    calculateTier a = "tier-1" := by
  simp only [calculateTier]
  rw [if_neg (by omega), if_neg (by omega)]

/-- A record with a score no larger than that of another record never lands in
a strictly higher tier. -/
theorem tierRank_le_of_score_le {a b : Answers}
    (h : calculateScore a ≤ calculateScore b) :
    tierRank (calculateTier a) ≤ tierRank (calculateTier b) := by
  by_cases hb6 : 6 ≤ calculateScore b
  · rw [calculateTier_eq_three hb6]
    rcases calculateTier_cases a with ha | ha | ha <;> rw [ha] <;> decide
  · by_cases hb4 : 4 ≤ calculateScore b
    · rw [calculateTier_eq_two hb4 (by omega)]
      by_cases ha4 : 4 ≤ calculateScore a
      · rw [calculateTier_eq_two ha4 (by omega)]
      · rw [calculateTier_eq_one (by omega)]
        decide
    · rw [calculateTier_eq_one (a := b) (by omega), calculateTier_eq_one (a := a) (by omega)]

/-- Claim C1: for every fully-set answer record the score computed by
calculateTier is the sum of the fixed integer weights: entity size
contributes 3 for large, 2 for medium and 1 for small or any other value;
service sensitivity contributes 3 for high, 2 for medium and 1 for low or
any other value; and governance maturity adds a modifier of +2 for none,
+1 for basic, -1 for structured, -2 for iso and 0 for any other value
(together with the capped infrastructure term). -/
theorem c1_score_is_sum_of_fixed_weights : ∀ a : Answers,
    calculateScore a =
      sizeWeight a.entitySize + sensitivityWeight a.serviceSensitivity +
        min (infraRiskSum a.digitalInfrastructure) 3 +
        governanceModifier a.governanceMaturity :=
  fun a => calculateScore_decomp a

/-- Claim C2: for every combination of the four infrastructure booleans the
score adds min of the independent subtotal (cloud true adds 1, mfa false adds
2, incidentProcess false adds 2, supplyChain true adds 1) and 3; whenever the
naive subtotal exceeds 3 the contribution is exactly 3, and in particular for
mfa false, incidentProcess false, cloud true the naive sum is 5 and the
contribution is 3. -/
theorem c2_infra_contribution_capped :
    ∀ (a : Answers) (d : DigitalInfrastructure), a.digitalInfrastructure = d →
      (calculateScore a =
        sizeWeight a.entitySize + sensitivityWeight a.serviceSensitivity +
          min (infraRiskSum d) 3 + governanceModifier a.governanceMaturity) ∧
      (3 < infraRiskSum d → min (infraRiskSum d) 3 = 3) ∧
      infraRiskSum ⟨true, false, false, false⟩ = 5 ∧
      min (infraRiskSum ⟨true, false, false, false⟩) 3 = 3 := by
  intro a d hd
  exact ⟨by rw [← hd]; exact calculateScore_decomp a, fun h => by omega,
    by decide, by decide⟩

/-- Claim C2 witness at the example flag combination of the claim. -/
theorem c2_infra_contribution_capped_witness :
    min (infraRiskSum ⟨true, false, false, false⟩) 3 = 3 :=
  (c2_infra_contribution_capped
    ⟨none, none, ⟨true, false, false, false⟩, none⟩
    ⟨true, false, false, false⟩ rfl).2.2.2

/-- Claim C3: the tier is selected from the final score by inclusive lower
bounds (at least 6 gives tier-3, 4 to 5 gives tier-2, below 4 gives tier-1);
in particular score 6 gives tier-3, scores 5 and 4 give tier-2, and score 3
gives tier-1. -/
theorem c3_threshold_selection : ∀ a : Answers,
    (6 ≤ calculateScore a → calculateTier a = "tier-3") ∧
    (4 ≤ calculateScore a → calculateScore a < 6 → calculateTier a = "tier-2") ∧
    (calculateScore a < 4 → calculateTier a = "tier-1") ∧
    (calculateScore a = 6 → calculateTier a = "tier-3") ∧
    (calculateScore a = 5 → calculateTier a = "tier-2") ∧
    (calculateScore a = 4 → calculateTier a = "tier-2") ∧
    (calculateScore a = 3 → calculateTier a = "tier-1") := by
  intro a
  exact ⟨fun h => calculateTier_eq_three h,
    fun h4 h6 => calculateTier_eq_two h4 h6,
    fun h => calculateTier_eq_one h,
    fun h => calculateTier_eq_three (by omega),
    fun h => calculateTier_eq_two (by omega) (by omega),
    fun h => calculateTier_eq_two (by omega) (by omega),
    fun h => calculateTier_eq_one (by omega)⟩

/-- Claim C3 witness: a record scoring exactly 6 lands in tier-3. -/
theorem c3_threshold_selection_witness :
    calculateTier ⟨some "small", some "high", ⟨false, true, true, false⟩, some "none"⟩ =
      "tier-3" :=
  (c3_threshold_selection
    ⟨some "small", some "high", ⟨false, true, true, false⟩, some "none"⟩).2.2.2.1
    (by decide)

/-- Claim C4: scenario A (large, high, mfa and incidentProcess true, cloud and
supplyChain false, iso) scores 4 and lands in tier-2; scenario B (small, low,
mfa and incidentProcess false, cloud and supplyChain true, none) scores 7 and
lands in tier-3. -/
theorem c4_concrete_scenarios :
    calculateScore ⟨some "large", some "high", ⟨false, true, true, false⟩, some "iso"⟩ = 4 ∧
    calculateTier ⟨some "large", some "high", ⟨false, true, true, false⟩, some "iso"⟩ =
      "tier-2" ∧
    calculateScore ⟨some "small", some "low", ⟨true, false, false, true⟩, some "none"⟩ = 7 ∧
    calculateTier ⟨some "small", some "low", ⟨true, false, false, true⟩, some "none"⟩ =
      "tier-3" := by
  decide

/-- Claim C5: over the full declared answer domain the calculator is
deterministic (equal records give equal tiers) and total (it always returns
one of the three tiers). -/
theorem c5_deterministic_total :
    ∀ (es ss gm : String) (d : DigitalInfrastructure),
      es ∈ (["small", "medium", "large"] : List String) →
      ss ∈ (["low", "medium", "high"] : List String) →
      gm ∈ (["none", "basic", "structured", "iso"] : List String) →
      (∀ b : Answers, b = ⟨some es, some ss, d, some gm⟩ →
        calculateTier b = calculateTier (⟨some es, some ss, d, some gm⟩ : Answers)) ∧
      calculateTier ⟨some es, some ss, d, some gm⟩ ∈
        (["tier-1", "tier-2", "tier-3"] : List String) := by
  intro es ss gm d _ _ _
  constructor
  · intro b hb
    rw [hb]
  · rcases calculateTier_cases ⟨some es, some ss, d, some gm⟩ with h | h | h <;>
      rw [h] <;> decide

/-- Claim C5 witness at a concrete corner of the domain. -/
theorem c5_deterministic_total_witness :
    calculateTier ⟨some "small", some "low", ⟨false, false, false, false⟩, some "none"⟩ ∈
      (["tier-1", "tier-2", "tier-3"] : List String) :=
  (c5_deterministic_total "small" "low" "none" ⟨false, false, false, false⟩
    (by decide) (by decide) (by decide)).2

/-- Claim C6: moving the entity size up the order small, medium, large with
all other answers fixed never decreases the score and never lowers the tier;
the same holds for service sensitivity along low, medium, high. -/
theorem c6_monotonicity :
    ∀ (a : Answers) (v w : String),
      (v ∈ (["small", "medium", "large"] : List String) →
        w ∈ (["small", "medium", "large"] : List String) →
        sizeRank v ≤ sizeRank w →
        calculateScore { a with entitySize := some v } ≤
          calculateScore { a with entitySize := some w } ∧
        tierRank (calculateTier { a with entitySize := some v }) ≤
          tierRank (calculateTier { a with entitySize := some w })) ∧
      (v ∈ (["low", "medium", "high"] : List String) →
        w ∈ (["low", "medium", "high"] : List String) →
        sensitivityRank v ≤ sensitivityRank w →
        calculateScore { a with serviceSensitivity := some v } ≤
          calculateScore { a with serviceSensitivity := some w } ∧
        tierRank (calculateTier { a with serviceSensitivity := some v }) ≤
          tierRank (calculateTier { a with serviceSensitivity := some w })) := by
  intro a v w
  constructor
  · intro hv hw hrank
    have hscore : calculateScore { a with entitySize := some v } ≤
        calculateScore { a with entitySize := some w } := by
      rw [calculateScore_decomp, calculateScore_decomp]
      have hvw : sizeWeight (some v) ≤ sizeWeight (some w) := by
        fin_cases hv <;> fin_cases hw <;> revert hrank <;> decide
      dsimp only
      omega
    exact ⟨hscore, tierRank_le_of_score_le hscore⟩
  · intro hv hw hrank
    have hscore : calculateScore { a with serviceSensitivity := some v } ≤
        calculateScore { a with serviceSensitivity := some w } := by
      rw [calculateScore_decomp, calculateScore_decomp]
      have hvw : sensitivityWeight (some v) ≤ sensitivityWeight (some w) := by
        fin_cases hv <;> fin_cases hw <;> revert hrank <;> decide
      dsimp only
      omega
    exact ⟨hscore, tierRank_le_of_score_le hscore⟩

/-- Claim C6 witness: raising small to medium on a concrete record does not
decrease the score. -/
theorem c6_monotonicity_witness :
    calculateScore ⟨some "small", some "low", ⟨false, false, false, false⟩, some "none"⟩ ≤
      calculateScore ⟨some "medium", some "low", ⟨false, false, false, false⟩, some "none"⟩ :=
  ((c6_monotonicity ⟨none, some "low", ⟨false, false, false, false⟩, some "none"⟩
    "small" "medium").1 (by decide) (by decide) (by decide)).1

/-- Claim C7: restart from any state resets the record to all-unset defaults
and the step to 1, with no carry-over. -/
theorem c7_restart_resets : ∀ st : SessionState,
    restartAssessment st = initialState ∧
    (restartAssessment st).step = 1 ∧
    (restartAssessment st).answers.entitySize = none ∧
    (restartAssessment st).answers.serviceSensitivity = none ∧
    (restartAssessment st).answers.digitalInfrastructure =
      ⟨false, false, false, false⟩ ∧
    (restartAssessment st).answers.governanceMaturity = none :=
  fun _ => ⟨rfl, rfl, rfl, rfl, rfl, rfl⟩

/-- Claim C8: going back from steps 2 to 5 moves one step down and leaves the
answers untouched; going back from step 1 changes nothing. -/
theorem c8_goback_frame : ∀ (st : SessionState) (cs : Nat),
    (cs ∈ ([2, 3, 4, 5] : List Nat) →
      (goBack cs st).step = cs - 1 ∧ (goBack cs st).answers = st.answers) ∧
    goBack 1 st = st := by
  intro st cs
  constructor
  · intro h
    fin_cases h <;> exact ⟨rfl, rfl⟩
  · rfl

/-- Claim C8 witness at step 2 of a concrete session. -/
theorem c8_goback_frame_witness :
    (goBack 2 ⟨2, ⟨some "large", none, ⟨false, false, false, false⟩, none⟩⟩).step = 1 ∧
    (goBack 2 ⟨2, ⟨some "large", none, ⟨false, false, false, false⟩, none⟩⟩).answers =
      (⟨some "large", none, ⟨false, false, false, false⟩, none⟩ : Answers) :=
  (c8_goback_frame ⟨2, ⟨some "large", none, ⟨false, false, false, false⟩, none⟩⟩ 2).1
    (by decide)

/-- Claim C9: submitting a second value for the same step overwrites the
first one: after selecting v and then w for step 1 (or 2, or 4) the record
holds exactly w in the corresponding field, all other fields unchanged. -/
theorem c9_resubmit_overwrites : ∀ (st : SessionState) (v w : String),
    (selectOption 1 w (selectOption 1 v st)).answers =
      { st.answers with entitySize := some w } ∧
    (selectOption 2 w (selectOption 2 v st)).answers =
      { st.answers with serviceSensitivity := some w } ∧
    (selectOption 4 w (selectOption 4 v st)).answers =
      { st.answers with governanceMaturity := some w } :=
  fun _ _ _ => ⟨rfl, rfl, rfl⟩

/-- Claim C10: the calculator is total over incomplete records: an unset
entity size contributes weight 1, an unset service sensitivity contributes
weight 1, an unset governance maturity contributes modifier 0, and the result
is always one of the three tiers. -/
theorem c10_incomplete_defaults : ∀ a : Answers,
    (a.entitySize = none →
      calculateScore a = 1 + sensitivityWeight a.serviceSensitivity +
        min (infraRiskSum a.digitalInfrastructure) 3 +
        governanceModifier a.governanceMaturity) ∧
    (a.serviceSensitivity = none →
      calculateScore a = sizeWeight a.entitySize + 1 +
        min (infraRiskSum a.digitalInfrastructure) 3 +
        governanceModifier a.governanceMaturity) ∧
    (a.governanceMaturity = none →
      calculateScore a = sizeWeight a.entitySize +
        sensitivityWeight a.serviceSensitivity +
        min (infraRiskSum a.digitalInfrastructure) 3) ∧
    (calculateTier a = "tier-1" ∨ calculateTier a = "tier-2" ∨
      calculateTier a = "tier-3") := by
  intro a
  refine ⟨?_, ?_, ?_, calculateTier_cases a⟩
  · intro h
    rw [calculateScore_decomp, h]
    simp [sizeWeight]
  · intro h
    rw [calculateScore_decomp, h]
    simp [sensitivityWeight]
  · intro h
    rw [calculateScore_decomp, h]
    simp [governanceModifier]

/-- Claim C10 witness on a record with every enum answer unset. -/
theorem c10_incomplete_defaults_witness :
    calculateScore ⟨none, some "low", ⟨false, false, false, false⟩, some "none"⟩ =
      1 + sensitivityWeight (some "low") +
        min (infraRiskSum ⟨false, false, false, false⟩) 3 +
        governanceModifier (some "none") :=
  (c10_incomplete_defaults ⟨none, some "low", ⟨false, false, false, false⟩, some "none"⟩).1
    rfl

end NIS2
